import Mathlib

/-!
Verification of the JSON-RPC server engine in src/src/server.rs.

The file `server.rs` is the only source file available; the modules it pulls
in (`types`, `raw_server`, `params`) are absent, so their data shapes are
modelled from the specification (wire shapes of section 6, data model of
section 3), while every function of `server.rs` itself is embedded directly
from the source.  Rust panics (`unimplemented`, `unreachable`) are made
explicit through the `PanicOr` result type, so a theorem can state that a
given input makes the code panic.
-/

namespace Jsonrpsee

/-- Modelled from the spec: a JSON-RPC request identifier, one of
Number, String or Null (spec section 3, "Id"); part of the missing
`types` module. -/
inductive Id where
  | num (n : Int)
  | str (s : String)
  | null
deriving DecidableEq

/-- Modelled from the spec: an opaque JSON value (the spec treats JSON
parsing as out of scope and values as opaque); part of the missing
`types` module. -/
inductive JsonValue where
  | null
  | bool (b : Bool)
  | num (n : Int)
  | str (s : String)
  | arr (items : List JsonValue)
  | obj (fields : List (String × JsonValue))

/-- Modelled from the spec: call parameters, positional or named
(spec section 4.3); part of the missing `types` module. -/
inductive Params where
  | byPosition (items : List JsonValue)
  | byName (fields : List (String × JsonValue))

/-- Modelled from the spec: a method call carrying an id, a method name
and parameters (spec section 3, "Call"); part of the missing `types`
module. -/
structure MethodCall where
  id : Id
  method : String
  params : Params

/-- Modelled from the spec: a notification, a call without an id
(spec section 3, "Call"); part of the missing `types` module. -/
structure Notification where
  method : String
  params : Params

/-- Modelled from the spec: one logical call, either a method call, a
notification, or an invalid placeholder that still carries an id
(spec section 3, "Call"); part of the missing `types` module. -/
inductive Call where
  | methodCall (c : MethodCall)
  | notification (n : Notification)
  | invalid (id : Id)

/-- Modelled from the spec: a physical request envelope, a single call or
a batch of calls (spec section 6, "Request"); part of the missing `types`
module. -/
inductive Request where
  | single (c : Call)
  | batch (cs : List Call)

/-- Modelled from the spec: a JSON-RPC error object with code, message and
optional data (spec section 6); part of the missing `types` module. -/
structure RpcError where
  code : Int
  message : String
  data : Option JsonValue

/-- Modelled from the spec: the protocol version tag carried by responses;
the source always passes `Version::V2`. Part of the missing `types`
module. -/
inductive Version where
  | v2

/-- Modelled from the spec: one response entry, success or failure, each
carrying the id it answers (spec section 6, "Output"); part of the missing
`types` module. -/
inductive Output where
  | success (id : Id) (result : JsonValue) (version : Version)
  | failure (id : Id) (error : RpcError) (version : Version)

/-- The id carried by an `Output`. -/
def Output.id : Output → Id
  | .success i _ _ => i
  | .failure i _ _ => i

/-- Modelled from the spec: the `Output::from` constructor of the missing
`types` module, building a success output from an `Ok` value and a failure
output from an `Err` error, at the given id and version. -/
def Output.fromResult (r : Except RpcError JsonValue) (id : Id) (v : Version) : Output :=
  match r with
  | .ok value => .success id value v
  | .error e => .failure id e v

/-- Modelled from the spec: a wire response, single or batch
(spec section 6, "Response"); part of the missing `types` module. -/
inductive Response where
  | single (o : Output)
  | batch (os : List Output)

/-- Modelled from the spec: the opaque write error of the transport
(`io::Error` in the source); its structure is never inspected by
`server.rs`. -/
def IoError : Type := Unit

/-- The outcome of a computation that may hit a Rust panic
(`unimplemented` or `unreachable` in the source). -/
inductive PanicOr (α : Type) where
  | ok (a : α)
  | panicked (msg : String)

/-- Embeds `Server` of src/src/server.rs (lines 42-45): a wrapper around a
raw server.  The raw transport (the missing `raw_server` module) is
modelled from the spec as the finite sequence of read outcomes it will
yield: each element is either a parsed `Request` or the unit error that the
`RawServerRef::next_request` interface reports, and an exhausted sequence
is a transport that has ended. -/
structure Server where
  raw : List (Except Unit Request)

/-- Embeds `ServerRq` of src/src/server.rs (lines 104-107): a request
generated by a `Server`, wrapping the raw request it came from. -/
structure ServerRq where
  inner : Request

/-- Embeds `Server::next_request` (src/src/server.rs lines 58-77): pulls
the next raw envelope, propagating the raw layer's unit error with the
question-mark operator; a `Single` envelope is wrapped into a `ServerRq`
returned to the caller; a `Batch` envelope hits `unimplemented`, a panic.
On success the remainder of the raw sequence is returned alongside the
request, standing for the mutated server. -/
def Server.next_request (s : Server) : PanicOr (Except Unit (ServerRq × Server)) :=
  match s.raw with
  | [] => .ok (.error ())
  | (.error _) :: _ => .ok (.error ())
  | (.ok rq) :: rest =>
    match rq with
    | .single _ => .ok (.ok (⟨rq⟩, ⟨rest⟩))
    | .batch _ => .panicked "not implemented"

/-- Embeds the commented-out `Server::request_by_id`
(src/src/server.rs lines 79-87): the entire block is commented out and its
body is `unimplemented`, so any deferred retrieval of a request by id is
absent from the code. -/
def Server.request_by_id (_s : Server) (_id : Id) : PanicOr (Option ServerRq) :=
  .panicked "not implemented"

/-- Embeds `ServerRq::call` (src/src/server.rs lines 112-117): a `Single`
inner request gives the call; a `Batch` inner request is declared
`unreachable`, a panic. -/
def ServerRq.call (rq : ServerRq) : PanicOr Call :=
  match rq.inner with
  | .single s => .ok s
  | .batch _ => .panicked "entered unreachable code"

/-- Embeds `ServerRq::id` (src/src/server.rs lines 123-129): `Some id` for
a method call, `None` for a notification, `Some id` for an invalid call. -/
def ServerRq.id (rq : ServerRq) : PanicOr (Option Id) :=
  match rq.call with
  | .panicked m => .panicked m
  | .ok (.methodCall mc) => .ok (some mc.id)
  | .ok (.notification _) => .ok none
  | .ok (.invalid i) => .ok (some i)

/-- Embeds `ServerRq::method` (src/src/server.rs lines 132-138): the method
name for a method call or a notification; an invalid call hits
`unimplemented`, a panic. -/
def ServerRq.method (rq : ServerRq) : PanicOr String :=
  match rq.call with
  | .panicked m => .panicked m
  | .ok (.methodCall mc) => .ok mc.method
  | .ok (.notification n) => .ok n.method
  | .ok (.invalid _) => .panicked "not implemented"

/-- Embeds `ServerRq::params` (src/src/server.rs lines 141-149): the
parameters of a method call or a notification; an invalid call hits
`unimplemented`, a panic.  The `ServerRequestParams::from` view of the
missing `params` module is modelled as the parameters themselves. -/
def ServerRq.params (rq : ServerRq) : PanicOr Params :=
  match rq.call with
  | .panicked m => .panicked m
  | .ok (.methodCall mc) => .ok mc.params
  | .ok (.notification n) => .ok n.params
  | .ok (.invalid _) => .panicked "not implemented"

/-- The observable effect of one `respond` call: the list of wire writes it
performed through the transport, and its returned value. -/
structure RespondOutcome where
  writes : List Response
  ret : Except IoError Unit

/-- Embeds `ServerRq::respond` (src/src/server.rs lines 159-163): consumes
the handle, builds `Output::from(response, Id::Null, Version::V2)` — the id
passed is always `Id::Null`, as the source's own TODO notes — wraps it as a
`Single` response and unconditionally performs exactly one `finish` write
through the transport, then returns `Ok`.  The transport write itself
belongs to the missing `raw_server` module and is modelled from the spec as
an accepting write capability. -/
def ServerRq.respond (_rq : ServerRq) (response : Except RpcError JsonValue) : RespondOutcome :=
  ⟨[Response.single (Output.fromResult response Id.null Version.v2)], Except.ok ()⟩

/-- Whether a call is a notification (spec predicate used to state the
id-accessor claim). -/
def Call.isNotification : Call → Bool
  | .notification _ => true
  | _ => false

/-- The handle of the single request with id 1, method "ping" and empty
positional parameters (the request of spec scenario A). -/
def pingRq : ServerRq :=
  ⟨Request.single (Call.methodCall ⟨Id.num 1, "ping", Params.byPosition []⟩)⟩

/-- The handle of the single notification with method "notify" and empty
positional parameters. -/
def notifRq : ServerRq :=
  ⟨Request.single (Call.notification ⟨"notify", Params.byPosition []⟩)⟩

/-- C1: the claim says `next_request` splits every Batch envelope into an
ordered sequence of Calls and yields them one handle per call; instead, for
every Batch envelope at the head of the transport, `next_request` hits
`unimplemented` and panics, so no splitting or yielding occurs. -/
theorem c1_next_request_panics_on_batch (cs : List Call)
    (rest : List (Except Unit Request)) :
    Server.next_request ⟨Except.ok (Request.batch cs) :: rest⟩
      = PanicOr.panicked "not implemented" := rfl

/-- C2: the claim says every BatchEnvelope is flushed exactly once, when its
outstanding-count reaches zero; for the two-call batch envelope below the
code panics already inside `next_request`, before any envelope, count or
flush can exist, so the flushed event never occurs for it. -/
theorem c2_two_call_batch_never_flushes :
    Server.next_request
        ⟨[Except.ok (Request.batch
          [Call.methodCall ⟨Id.num 1, "a", Params.byPosition []⟩,
           Call.methodCall ⟨Id.num 2, "b", Params.byPosition []⟩])]⟩
      = PanicOr.panicked "not implemented" := rfl

/-- C3: the claim says responding Ok "pong" to the single ping request with
id 1 produces a wire output that echoes id 1; the code instead writes the
output at `Id::Null`, discarding the request id, so the produced id is Null
and not 1. -/
theorem c3_ping_response_has_null_id :
    (ServerRq.respond pingRq (Except.ok (JsonValue.str "pong"))).writes
        = [Response.single (Output.success Id.null (JsonValue.str "pong") Version.v2)]
      ∧ Output.id (Output.success Id.null (JsonValue.str "pong") Version.v2)
        ≠ Id.num 1 :=
  ⟨rfl, by decide⟩

/-- C4: for every handle and every response value, the output `respond`
writes through the transport is the single output built at `Id::Null`,
whose id is `Id::Null` regardless of the underlying request. -/
theorem c4_respond_output_id_always_null (rq : ServerRq)
    (r : Except RpcError JsonValue) :
    (ServerRq.respond rq r).writes
        = [Response.single (Output.fromResult r Id.null Version.v2)]
      ∧ Output.id (Output.fromResult r Id.null Version.v2) = Id.null := by
  refine ⟨rfl, ?_⟩
  cases r <;> rfl

/-- C5: the claim says `respond` on a Notification's handle fails with
`NotRespondable` and never writes; on the concrete notification handle the
code instead performs exactly one wire write (a Single response at
`Id::Null`) and returns Ok — no `NotRespondable` failure exists in its
return type at all. -/
theorem c5_respond_on_notification_writes_and_succeeds :
    (ServerRq.respond notifRq (Except.ok (JsonValue.str "x"))).writes
        = [Response.single (Output.success Id.null (JsonValue.str "x") Version.v2)]
      ∧ (ServerRq.respond notifRq (Except.ok (JsonValue.str "x"))).ret
        = Except.ok () :=
  ⟨rfl, rfl⟩

/-- C6: for every call wrapped as a single-envelope handle, `id` returns
`None` exactly when the call is a Notification, and returns `Some` of the
carried id for a MethodCall and for an Invalid call. -/
theorem c6_id_none_iff_notification (c : Call) :
    (ServerRq.id ⟨Request.single c⟩ = PanicOr.ok none
        ↔ Call.isNotification c = true)
      ∧ (∀ mc : MethodCall,
          ServerRq.id ⟨Request.single (Call.methodCall mc)⟩
            = PanicOr.ok (some mc.id))
      ∧ (∀ i : Id,
          ServerRq.id ⟨Request.single (Call.invalid i)⟩
            = PanicOr.ok (some i)) := by
  refine ⟨?_, fun mc => rfl, fun i => rfl⟩
  cases c <;> simp [ServerRq.id, ServerRq.call, Call.isNotification]

/-- C7: the claim says a `respond` whose decrement does not reach zero
returns without touching the transport, only the zero-reaching decrement
writing; the code has no outstanding-count at all: every `respond` call on
every handle performs exactly one transport write, and the batch that would
make a non-final `respond` possible panics inside `next_request`. -/
theorem c7_respond_always_touches_transport :
    (∀ (rq : ServerRq) (r : Except RpcError JsonValue),
        (ServerRq.respond rq r).writes.length = 1)
      ∧ Server.next_request
          ⟨[Except.ok (Request.batch
            [Call.methodCall ⟨Id.num 1, "a", Params.byPosition []⟩,
             Call.notification ⟨"n", Params.byPosition []⟩,
             Call.methodCall ⟨Id.num 2, "b", Params.byPosition []⟩])]⟩
          = PanicOr.panicked "not implemented" :=
  ⟨fun _ _ => rfl, rfl⟩

/-- C8: the claim says `method` on an Invalid call reports a typed failure
and never crashes the process; on the concrete Invalid handle the code hits
`unimplemented`, a panic — a process crash, not a typed failure. -/
theorem c8_method_on_invalid_panics :
    ServerRq.method ⟨Request.single (Call.invalid Id.null)⟩
      = PanicOr.panicked "not implemented" := rfl

/-- C9 counterexample: the claim says `next_request` distinguishes a
terminal `TransportClosed` from a non-fatal `TransportFault`; the code's
error type is the unit type, and the ended transport and the transport
reporting a per-read error produce literally the same result. -/
theorem c9_closed_and_fault_same_error :
    Server.next_request ⟨[]⟩ = Server.next_request ⟨[Except.error ()]⟩ := rfl

/-- C9 (amended): `next_request` fails with the single undifferentiated
unit error both when the transport has ended and when a per-read transport
error occurs; no `TransportClosed` / `TransportFault` distinction exists. -/
theorem c9_next_request_unit_error (rest : List (Except Unit Request)) :
    Server.next_request ⟨[]⟩ = PanicOr.ok (Except.error ())
      ∧ Server.next_request ⟨Except.error () :: rest⟩
        = PanicOr.ok (Except.error ()) :=
  ⟨rfl, rfl⟩

/-- C10: the claim says `defer` followed by `PendingRequestStore.take` (in
this code, retrieval through `request_by_id`) round-trips a handle with id,
method and params unchanged; no defer or pending store exists in the code,
and `request_by_id` — itself commented out — is `unimplemented`: every
retrieval by id, for every server state, panics. -/
theorem c10_request_by_id_panics (s : Server) (i : Id) :
    Server.request_by_id s i = PanicOr.panicked "not implemented" := rfl

end Jsonrpsee
